import Mathlib

/-!
Verification of the `gmt/clib/core.py` FFI adapter (`LibGMT` class).

The Python class is a thin ctypes wrapper over the native libgmt C API.
We embed it shallowly: the native library is an abstract environment
(`Env`) of pure functions standing in for the bound C entry points, the
interpreter-level state (`_session_id` plus the files currently existing
on disk) is threaded explicitly as `PyState`, and fallible Python code
becomes `Except GMTError` values.  Native-call sequencing that claims
care about is recorded as a `NativeCall` trace.
-/

/-- Modelled from the spec: the exception hierarchy lives in
`gmt/exceptions.py`, which is not part of the sources under study.  The
spec states that non-zero native return codes map to "a single error
category" and that "absence of a valid session when required is its own
distinct error category", so we model exactly two distinct constructors:
`clibError` for `GMTCLibError` and `noSessionError` for
`GMTCLibNoSessionError`. -/
inductive GMTError where
  | clibError (msg : String)
  | noSessionError (msg : String)
  deriving DecidableEq, Repr

/-- One invocation of a bound native (C) library function, as recorded in
an execution trace. -/
inductive NativeCall where
  | getEnum (name : String)
  | handleMessages (session : Nat) (logOnce isFile : Int) (path : String)
  | callModule (session : Nat) (module : String) (mode : Int) (args : String)
  | createData (session : Nat) (family geometry mode : Int)
      (dim : Option (List Nat)) (ranges : Option (List Int))
      (inc : Option (List Int)) (registration pad : Int) (data : Option Nat)
  | destroySession (session : Nat)
  | createSession (name : String) (padding sessionType : Int)
  deriving DecidableEq, Repr

/-- The native libgmt library, abstracted: each bound C function is a pure
function chosen by the environment.  `getEnum` returns `none` to model the
`None` return the Python code guards against; `logText` is the diagnostic
text that reading the log file back yields (before stripping). -/
structure Env where
  getEnum : String → Option Int
  handleMessages : Nat → Int → Int → String → Int
  callModuleStatus : Nat → String → Int → String → Int
  destroySession : Nat → Int
  createSession : String → Int → Int → Option Nat
  createData : Nat → Int → Int → Int → Option (List Nat) → Option (List Int) →
      Option (List Int) → Int → Int → Option Nat → Option Nat
  logText : String

/-- Interpreter-level state: the `_session_id` attribute of the `LibGMT`
object, and the set of files currently existing on disk (so that creation
and deletion of the temporary log file are observable). -/
structure PyState where
  session : Option Nat
  files : List String
  deriving DecidableEq, Repr

/-- The state right after `__init__`: `_session_id` is `None`. -/
def initState (files : List String) : PyState := ⟨none, files⟩

/-- `current_session` property: raises `GMTCLibNoSessionError` when
`_session_id is None`, otherwise returns the stored handle. -/
def current_session (s : PyState) : Except GMTError Nat :=
  match s.session with
  | none => .error (.noSessionError
      "No currently open session. Call methods only inside a 'with' block.")
  | some sid => .ok sid

/-- `get_constant`: wraps `GMT_Get_Enum`; raises `GMTCLibError` when the
lookup returns `None` or the sentinel `-99999`, otherwise returns the
looked-up integer unchanged. -/
def get_constant (env : Env) (name : String) : Except GMTError Int :=
  match env.getEnum name with
  | none => .error (.clibError
      ("Constant '" ++ name ++ "' doesn't exits in libgmt."))
  | some value =>
      if value = -99999 then
        .error (.clibError
          ("Constant '" ++ name ++ "' doesn't exits in libgmt."))
      else
        .ok value

/-- `destroy_session`: calls `GMT_Destroy_Session` and raises
`GMTCLibError` on a non-zero status. -/
def destroy_session (env : Env) (session : Nat) : Except GMTError Unit :=
  if env.destroySession session ≠ 0 then
    .error (.clibError "Failed to destroy GMT API session")
  else
    .ok ()

/-- `create_session`: looks up the two constants, calls
`GMT_Create_Session`, and raises `GMTCLibError` when the returned pointer
is `NULL` (`None`). -/
def create_session (env : Env) (session_name : String) :
    Except GMTError Nat := do
  let padding ← get_constant env "GMT_PAD_DEFAULT"
  let session_type ← get_constant env "GMT_SESSION_EXTERNAL"
  match env.createSession session_name padding session_type with
  | none => .error (.clibError "Failed to create a GMT API void pointer.")
  | some session => .ok session

/-- `__enter__`: stores a fresh session handle in `current_session`. -/
def libGMT_enter (env : Env) (s : PyState) :
    Except GMTError PyState :=
  match create_session env "gmt-python-session" with
  | .error e => .error e
  | .ok sid => .ok ⟨some sid, s.files⟩

/-- `__exit__`: `try: destroy_session(current_session) finally:
current_session = None`.  The `finally` clears the stored session handle
on every path, including when `destroy_session` raises. -/
def libGMT_exit (env : Env) (s : PyState) :
    Except GMTError Unit × PyState :=
  let res : Except GMTError Unit := do
    let sid ← current_session s
    destroy_session env sid
  (res, ⟨none, s.files⟩)

/-- Python's `str.split(sep)` for a one-character separator: splits on
every occurrence, keeping empty pieces, and yields `[""]` on the empty
string.  (Helper for the character-list recursion.) -/
def pySplitAux (sep : Char) : List Char → List Char → List (List Char)
  | [], acc => [acc.reverse]
  | c :: rest, acc =>
      if c = sep then acc.reverse :: pySplitAux sep rest []
      else pySplitAux sep rest (c :: acc)

/-- Python's `family.split('|')`. -/
def pySplit (s : String) (sep : Char) : List String :=
  (pySplitAux sep s.data []).map String.mk

/-- Python's `str.strip()`: whitespace removed from both ends. -/
def pyStrip (s : String) : String :=
  String.mk
    (((s.data.dropWhile Char.isWhitespace).reverse.dropWhile
        Char.isWhitespace).reverse)

/-- The `data_families` class attribute. -/
def data_families : List String :=
  ["GMT_IS_DATASET", "GMT_IS_GRID", "GMT_IS_PALETTE", "GMT_IS_MATRIX",
   "GMT_IS_VECTOR"]

/-- The `data_vias` class attribute. -/
def data_vias : List String :=
  ["GMT_VIA_MATRIX", "GMT_VIA_VECTOR"]

/-- The `data_geometries` class attribute. -/
def data_geometries : List String :=
  ["GMT_IS_NONE", "GMT_IS_POINT", "GMT_IS_LINE", "GMT_IS_POLYGON",
   "GMT_IS_PLP", "GMT_IS_SURFACE"]

/-- The `data_modes` class attribute. -/
def data_modes : List String :=
  ["GMT_CONTAINER_ONLY", "GMT_OUTPUT"]

/-- `_parse_data_family`, with the native `GMT_Get_Enum` invocations it
performs recorded in order. -/
def parse_data_family (env : Env) (family : String) :
    Except GMTError Int × List NativeCall :=
  let parts := pySplit family '|'
  if parts.length > 2 then
    (.error (.clibError
      ("Too many sections in family (>2): '" ++ family ++ "'")), [])
  else
    let family_name := parts.headD ""
    if family_name ∈ data_families then
      match get_constant env family_name with
      | .error e => (.error e, [.getEnum family_name])
      | .ok family_value =>
          if parts.length = 2 then
            let via_name := (parts.drop 1).headD ""
            if via_name ∈ data_vias then
              match get_constant env via_name with
              | .error e =>
                  (.error e, [.getEnum family_name, .getEnum via_name])
              | .ok via_value =>
                  (.ok (family_value + via_value),
                    [.getEnum family_name, .getEnum via_name])
            else
              (.error (.clibError
                  ("Invalid data family (via) '" ++ via_name ++ "'.")),
                [.getEnum family_name])
          else
            (.ok family_value, [.getEnum family_name])
    else
      (.error (.clibError
        ("Invalid data family '" ++ family_name ++ "'.")), [])

/-- The `log_to_file` context manager, applied to a `with` body.

`tempName` is the path `tempfile.NamedTemporaryFile` would generate.  When
`logfile?` is `none` the temporary file is created on disk (it survives
`close()` because `delete=False`); then `current_session`, the two
constant lookups and `GMT_Handle_Messages` run, any failure among them
propagating as an exception.  On success the body runs with the log path.
`@contextmanager` wraps a plain generator with no `try/finally`, so
`os.remove(logfile)` runs only when the body finishes normally; an
exception raised before the `yield` or propagating through it leaves the
file on disk. -/
def log_to_file (env : Env) (tempName : String) (logfile? : Option String)
    (s : PyState) (body : String → PyState → Except GMTError α × PyState) :
    Except GMTError α × PyState :=
  let (logfile, s1) :=
    match logfile? with
    | none => (tempName, (⟨s.session, tempName :: s.files⟩ : PyState))
    | some f => (f, s)
  match current_session s1 with
  | .error e => (.error e, s1)
  | .ok sid =>
  match get_constant env "GMT_LOG_ONCE" with
  | .error e => (.error e, s1)
  | .ok logOnce =>
  match get_constant env "GMT_IS_FILE" with
  | .error e => (.error e, s1)
  | .ok isFile =>
  let status := env.handleMessages sid logOnce isFile logfile
  if status ≠ 0 then
    (.error (.clibError
        ("Failed to set logging to file '" ++ logfile ++ "' (error: " ++
          toString status ++ ").")), s1)
  else
    match body logfile s1 with
    | (.error e, s2) => (.error e, s2)
    | (.ok a, s2) => (.ok a, ⟨s2.session, s2.files.erase logfile⟩)

/-- The multi-line failure message `call_module` builds when the captured
log is non-empty (`'\n'.join([...])` in the source). -/
def callModuleFailMsg (module : String) (status : Int) (log : String) :
    String :=
  "'" ++ module ++ "' failed (error: " ++ toString status ++ ")." ++ "\n" ++
    "---------- Error log ----------" ++ "\n" ++ "" ++ "\n" ++ log ++ "\n" ++
    "" ++ "\n" ++ "-------------------------------"

/-- `call_module`: looks up `GMT_MODULE_CMD`, grabs the current session
(outside the log `with` block, as the source comments insist), then inside
`log_to_file` calls `GMT_Call_Module` and reads the stripped log text.
After the `with` block (so after `os.remove`), a non-zero status raises
`GMTCLibError`, with a message that embeds the log text when it is
non-empty and an invalid-module-name message when it is empty. -/
def call_module (env : Env) (tempName : String) (module args : String)
    (s : PyState) : Except GMTError Unit × PyState :=
  match get_constant env "GMT_MODULE_CMD" with
  | .error e => (.error e, s)
  | .ok mode =>
    match current_session s with
    | .error e => (.error e, s)
    | .ok session =>
      match log_to_file env tempName none s (fun _logfile s1 =>
          let status := env.callModuleStatus session module mode args
          let log := pyStrip env.logText
          (.ok (status, log), s1)) with
      | (.error e, s2) => (.error e, s2)
      | (.ok (status, log), s2) =>
          if status ≠ 0 then
            if log = "" then
              (.error (.clibError
                  ("Invalid GMT module name '" ++ module ++ "'.")), s2)
            else
              (.error (.clibError (callModuleFailMsg module status log)), s2)
          else
            (.ok (), s2)

/-- The keyword arguments `create_data` accepts.  A `none` field is a key
absent from `kwargs`. -/
structure CreateDataKwargs where
  dim : Option (List Nat)
  ranges : Option (List Int)
  inc : Option (List Int)
  registration : Option Int
  pad : Option Int
  deriving DecidableEq, Repr

/-- An empty `kwargs` dictionary. -/
def noKwargs : CreateDataKwargs := ⟨none, none, none, none, none⟩

/-- Modelled from the spec: `kwargs_to_ctypes_array` lives in
`gmt/clib/utils.py`, which is not among the sources under study.  Per the
`create_data` docstring ("If `None`, will pass in the NULL pointer") it
converts the value to a ctypes array when the key is present and yields
the `NULL` pointer (`none`) when it is absent. -/
def kwargs_to_ctypes_array (value : Option β) : Option β := value

/-- `create_data`, with the native calls it performs recorded in order:
parses the family (which already performs `GMT_Get_Enum` lookups),
validates `mode` and `geometry` against the class attributes, converts
`dim`, `ranges`, `inc`, computes `registration` and `pad` — Python's
`kwargs.get(key, default)` evaluates the `get_constant` default eagerly,
whether or not the key is present — and finally calls `GMT_Create_Data`,
raising when the returned pointer is `NULL`. -/
def create_data (env : Env) (s : PyState)
    (family geometry mode : String) (kwargs : CreateDataKwargs) :
    Except GMTError Nat × List NativeCall :=
  match parse_data_family env family with
  | (.error e, tr) => (.error e, tr)
  | (.ok family_int, tr) =>
    if mode ∈ data_modes then
      if geometry ∈ data_geometries then
        let dim := kwargs_to_ctypes_array kwargs.dim
        let ranges := kwargs_to_ctypes_array kwargs.ranges
        let inc := kwargs_to_ctypes_array kwargs.inc
        match get_constant env "GMT_GRID_NODE_REG" with
        | .error e => (.error e, tr ++ [.getEnum "GMT_GRID_NODE_REG"])
        | .ok regDefault =>
          let registration := kwargs.registration.getD regDefault
          match get_constant env "GMT_PAD_DEFAULT" with
          | .error e =>
              (.error e, tr ++ [.getEnum "GMT_GRID_NODE_REG",
                .getEnum "GMT_PAD_DEFAULT"])
          | .ok padDefault =>
            let pad := kwargs.pad.getD padDefault
            let tr2 := tr ++ [.getEnum "GMT_GRID_NODE_REG",
              .getEnum "GMT_PAD_DEFAULT"]
            match current_session s with
            | .error e => (.error e, tr2)
            | .ok session =>
              match get_constant env geometry with
              | .error e => (.error e, tr2 ++ [.getEnum geometry])
              | .ok geometry_int =>
                match get_constant env mode with
                | .error e =>
                    (.error e, tr2 ++ [.getEnum geometry, .getEnum mode])
                | .ok mode_int =>
                  let tr3 := tr2 ++ [.getEnum geometry, .getEnum mode,
                    .createData session family_int geometry_int mode_int dim
                      ranges inc registration pad none]
                  match env.createData session family_int geometry_int
                      mode_int dim ranges inc registration pad none with
                  | none =>
                      (.error (.clibError
                        "Failed to create an empty GMT data pointer."), tr3)
                  | some data_ptr => (.ok data_ptr, tr3)
      else
        (.error (.clibError
          ("Invalid data geometry '" ++ geometry ++ "'.")), tr)
    else
      (.error (.clibError
        ("Invalid data creation mode '" ++ mode ++ "'.")), tr)

/-- A concrete enum table used by witnesses and counterexamples, with one
entry per constant name the adapter looks up, plus one constant with a
negative (but valid) value. -/
def enumTable : String → Option Int := fun name =>
  if name = "GMT_MODULE_CMD" then some 1
  else if name = "GMT_LOG_ONCE" then some 2
  else if name = "GMT_IS_FILE" then some 3
  else if name = "GMT_PAD_DEFAULT" then some 4
  else if name = "GMT_SESSION_EXTERNAL" then some 5
  else if name = "GMT_GRID_NODE_REG" then some 6
  else if name = "GMT_IS_GRID" then some 10
  else if name = "GMT_VIA_MATRIX" then some 20
  else if name = "GMT_IS_POINT" then some 30
  else if name = "GMT_OUTPUT" then some 40
  else if name = "GMT_NEGATIVE_TEST" then some (-5)
  else none

/-- A native library in which every call succeeds. -/
def envOK : Env :=
  ⟨enumTable, fun _ _ _ _ => 0, fun _ _ _ _ => 0, fun _ => 0,
    fun _ _ _ => some 99, fun _ _ _ _ _ _ _ _ _ _ => some 77, ""⟩

/-- A native library in which `GMT_Handle_Messages` fails (returns 1) and
everything else succeeds. -/
def envLeak : Env :=
  ⟨enumTable, fun _ _ _ _ => 1, fun _ _ _ _ => 0, fun _ => 0,
    fun _ _ _ => some 99, fun _ _ _ _ _ _ _ _ _ _ => some 77, ""⟩

/-- A native library in which `GMT_Call_Module` fails (returns 5) and
writes `"boom"` to the diagnostic log. -/
def envFail : Env :=
  ⟨enumTable, fun _ _ _ _ => 0, fun _ _ _ _ => 5, fun _ => 0,
    fun _ _ _ => some 99, fun _ _ _ _ _ _ _ _ _ _ => some 77, "boom"⟩

/-- A native library in which `GMT_Call_Module` fails (returns 5) and the
log file holds only whitespace, so the stripped log text is empty. -/
def envFailEmptyLog : Env :=
  ⟨enumTable, fun _ _ _ _ => 0, fun _ _ _ _ => 5, fun _ => 0,
    fun _ _ _ => some 99, fun _ _ _ _ _ _ _ _ _ _ => some 77, " \n "⟩

/-- The inputs `_parse_data_family` accepts: at most two `'|'`-separated
parts, the first in `data_families`, and the second — when present — in
`data_vias`. -/
def familyStringValid (family : String) : Prop :=
  (pySplit family '|').length ≤ 2 ∧
  (pySplit family '|').headD "" ∈ data_families ∧
  ((pySplit family '|').length = 2 →
    ((pySplit family '|').drop 1).headD "" ∈ data_vias)

/-- Claim C3: accessing `current_session` raises `GMTCLibNoSessionError`
(a constructor distinct from `GMTCLibError`) whenever no session is open:
when `_session_id` is `None`, in the freshly initialised state (before
`__enter__`), and in any state produced by `__exit__` — whatever the
native destroy returned — and in those states it never returns a
handle. -/
theorem current_session_no_session (env : Env) (s t : PyState)
    (h : s.session = none) :
    (∃ m, current_session s = Except.error (GMTError.noSessionError m)) ∧
    (∃ m, current_session (initState []) =
      Except.error (GMTError.noSessionError m)) ∧
    (∃ m, current_session (libGMT_exit env t).2 =
      Except.error (GMTError.noSessionError m)) ∧
    (∀ v, current_session s ≠ Except.ok v) ∧
    (∀ m m', GMTError.noSessionError m ≠ GMTError.clibError m') := by
  have hs : current_session s = Except.error (GMTError.noSessionError
      "No currently open session. Call methods only inside a 'with' block.") := by
    unfold current_session
    rw [h]
  refine ⟨⟨_, hs⟩, ⟨_, rfl⟩, ⟨_, rfl⟩, ?_, ?_⟩
  · intro v hv
    rw [hs] at hv
    exact Except.noConfusion hv
  · intro m m' hmm
    exact GMTError.noConfusion hmm

/-- Witness for C3 at a concrete closed state. -/
theorem current_session_no_session_witness :
    ∃ m, current_session (PyState.mk none []) =
      Except.error (GMTError.noSessionError m) :=
  (current_session_no_session envOK ⟨none, []⟩ ⟨some 3, []⟩ rfl).1

/-- Claim C5: `__exit__` always ends with the stored session cleared to
`None` — the `finally` runs on every path — and its outcome is exactly
that of `destroy_session` on the open session: `GMTCLibError` when the
native destroy returns non-zero, normal return when it returns zero. -/
theorem exit_destroys_and_clears (env : Env) (s : PyState) (sid : Nat)
    (h : s.session = some sid) :
    (libGMT_exit env s).2.session = none ∧
    (libGMT_exit env s).1 =
      (if env.destroySession sid ≠ 0
       then Except.error
         (GMTError.clibError "Failed to destroy GMT API session")
       else Except.ok ()) := by
  obtain ⟨sess, files⟩ := s
  simp only [PyState.session] at h
  subst h
  exact ⟨rfl, rfl⟩

/-- Witness for C5: in `envOK` the destroy succeeds, and in a variant
where the native destroy fails the session is still cleared. -/
theorem exit_destroys_and_clears_witness :
    (libGMT_exit envOK ⟨some 1, []⟩).2.session = none ∧
    (libGMT_exit envOK ⟨some 1, []⟩).1 = Except.ok () := by
  have h := exit_destroys_and_clears envOK ⟨some 1, []⟩ 1 rfl
  exact ⟨h.1, by rw [h.2]; rfl⟩

/-- Claim C6: `get_constant` raises `GMTCLibError` exactly when the
native `GMT_Get_Enum` lookup yields `None` or the sentinel `-99999`; any
other integer — negative values included — is returned unchanged. -/
theorem get_constant_iff (env : Env) (name : String) (v : Int) :
    ((env.getEnum name = none ∨ env.getEnum name = some (-99999)) →
      get_constant env name = Except.error (GMTError.clibError
        ("Constant '" ++ name ++ "' doesn't exits in libgmt."))) ∧
    (env.getEnum name = some v → v ≠ -99999 →
      get_constant env name = Except.ok v) ∧
    (∀ e, get_constant env name = Except.error e →
      env.getEnum name = none ∨ env.getEnum name = some (-99999)) := by
  refine ⟨?_, ?_, ?_⟩
  · rintro (h | h) <;> unfold get_constant <;> rw [h]
    rfl
  · intro h hv
    unfold get_constant
    rw [h]
    simp [hv]
  · intro e he
    unfold get_constant at he
    cases hg : env.getEnum name with
    | none => exact Or.inl rfl
    | some w =>
        rw [hg] at he
        by_cases hw : w = -99999
        · subst hw
          exact Or.inr rfl
        · simp [hw] at he

/-- Witness for C6: a successful lookup returns the integer unchanged,
and so does a lookup whose value is negative. -/
theorem get_constant_iff_witness :
    get_constant envOK "GMT_IS_GRID" = Except.ok 10 ∧
    get_constant envOK "GMT_NEGATIVE_TEST" = Except.ok (-5) :=
  ⟨(get_constant_iff envOK "GMT_IS_GRID" 10).2.1 rfl (by decide),
   (get_constant_iff envOK "GMT_NEGATIVE_TEST" (-5)).2.1 rfl (by decide)⟩

/-- Claim C7: `_parse_data_family` splits the family string on `'|'` and
raises `GMTCLibError` when there are more than two parts, when the first
part is not in `data_families`, or when a present second part is not in
`data_vias`; otherwise it returns `get_constant` of the family part plus
`get_constant` of the via part, the via contribution being `0` when no
via part is given. -/
theorem parse_data_family_cases (env : Env) (family fam via : String)
    (fv vv : Int) :
    ((pySplit family '|').length > 2 →
      (parse_data_family env family).1 = Except.error (GMTError.clibError
        ("Too many sections in family (>2): '" ++ family ++ "'"))) ∧
    (¬ (pySplit family '|').length > 2 →
      (pySplit family '|').headD "" ∉ data_families →
      (parse_data_family env family).1 = Except.error (GMTError.clibError
        ("Invalid data family '" ++ (pySplit family '|').headD "" ++ "'."))) ∧
    (pySplit family '|' = [fam] → fam ∈ data_families →
      get_constant env fam = Except.ok fv →
      (parse_data_family env family).1 = Except.ok (fv + 0)) ∧
    (pySplit family '|' = [fam, via] → fam ∈ data_families →
      via ∉ data_vias → get_constant env fam = Except.ok fv →
      (parse_data_family env family).1 = Except.error (GMTError.clibError
        ("Invalid data family (via) '" ++ via ++ "'."))) ∧
    (pySplit family '|' = [fam, via] → fam ∈ data_families →
      via ∈ data_vias → get_constant env fam = Except.ok fv →
      get_constant env via = Except.ok vv →
      (parse_data_family env family).1 = Except.ok (fv + vv)) := by
  refine ⟨?_, ?_, ?_, ?_, ?_⟩
  · intro h
    simp only [parse_data_family]
    rw [if_pos h]
  · intro h hnot
    simp only [parse_data_family]
    rw [if_neg h, if_neg hnot]
  · intro hp hmem hok
    simp only [parse_data_family, hp]
    simp [hmem, hok]
  · intro hp hmem hvnot hok
    simp only [parse_data_family, hp]
    simp [hmem, hok, hvnot]
  · intro hp hmem hvmem hok hvok
    simp only [parse_data_family, hp]
    simp [hmem, hok, hvmem, hvok]

/-- Witness for C7 on a concrete family-with-via string. -/
theorem parse_data_family_cases_witness :
    (parse_data_family envOK "GMT_IS_GRID|GMT_VIA_MATRIX").1 =
      Except.ok (10 + 20) :=
  (parse_data_family_cases envOK "GMT_IS_GRID|GMT_VIA_MATRIX" "GMT_IS_GRID"
    "GMT_VIA_MATRIX" 10 20).2.2.2.2 rfl (by decide) (by decide) rfl rfl

/-- Helper: a pass through `log_to_file` with an automatic temporary file
in which setup succeeds and the body finishes normally: the temporary
file is created, logging is set up, the body runs on the extended file
set, and `os.remove` finally deletes the temporary file. -/
theorem log_to_file_none_ok {α : Type} (env : Env) (tempName : String)
    (s s2 : PyState) (a : α) (sid : Nat) (logOnceV isFileV : Int)
    (body : String → PyState → Except GMTError α × PyState)
    (hsid : s.session = some sid)
    (hlog : get_constant env "GMT_LOG_ONCE" = Except.ok logOnceV)
    (hfile : get_constant env "GMT_IS_FILE" = Except.ok isFileV)
    (hmsg : env.handleMessages sid logOnceV isFileV tempName = 0)
    (hbody : body tempName ⟨s.session, tempName :: s.files⟩ =
      (Except.ok a, s2)) :
    log_to_file env tempName none s body =
      (Except.ok a, ⟨s2.session, s2.files.erase tempName⟩) := by
  obtain ⟨sess, files⟩ := s
  simp only [PyState.session] at hsid
  subst hsid
  simp only [PyState.session, PyState.files] at hbody
  simp [log_to_file, current_session, hlog, hfile, hmsg, hbody]

/-- Claim C9: `log_to_file` with a caller-supplied `logfile` creates no
temporary file — the body sees exactly the caller's state — and on normal
exit of the context the caller-supplied file is removed from disk. -/
theorem log_to_file_explicit_no_temp {α : Type} (env : Env)
    (tempName f : String) (s s2 : PyState) (a : α) (sid : Nat)
    (logOnceV isFileV : Int)
    (body : String → PyState → Except GMTError α × PyState)
    (hsid : s.session = some sid)
    (hlog : get_constant env "GMT_LOG_ONCE" = Except.ok logOnceV)
    (hfile : get_constant env "GMT_IS_FILE" = Except.ok isFileV)
    (hmsg : env.handleMessages sid logOnceV isFileV f = 0)
    (hbody : body f s = (Except.ok a, s2)) :
    log_to_file env tempName (some f) s body =
      (Except.ok a, ⟨s2.session, s2.files.erase f⟩) := by
  obtain ⟨sess, files⟩ := s
  simp only [PyState.session] at hsid
  subst hsid
  simp [log_to_file, current_session, hlog, hfile, hmsg, hbody]

/-- Witness for C9: the caller-supplied `my.log` is removed, the unused
temp name never appears, and other files are untouched. -/
theorem log_to_file_explicit_no_temp_witness :
    log_to_file envOK "unused-tmp.log" (some "my.log")
        ⟨some 1, ["my.log", "other.txt"]⟩
        (fun _ st => (Except.ok 42, st)) =
      (Except.ok 42, ⟨some 1, ["other.txt"]⟩) := by
  have h := log_to_file_explicit_no_temp envOK "unused-tmp.log" "my.log"
    ⟨some 1, ["my.log", "other.txt"]⟩ ⟨some 1, ["my.log", "other.txt"]⟩ 42 1
    2 3 (fun _ st => (Except.ok 42, st)) rfl rfl rfl rfl rfl
  exact h

/-- Counterexample to C1 as stated: when `GMT_Handle_Messages` fails
(returns 1), `log_to_file` raises after having created the temporary file
but before reaching its cleanup line, so `call_module` propagates the
exception and the temporary log file is left on disk. -/
theorem call_module_logfile_leak :
    (call_module envLeak "gmt-python-tmp.log" "psxy" "-R0/5/0/5"
        ⟨some 1, []⟩).2.files = ["gmt-python-tmp.log"] ∧
    (call_module envLeak "gmt-python-tmp.log" "psxy" "-R0/5/0/5"
        ⟨some 1, []⟩).1 =
      Except.error (GMTError.clibError
        "Failed to set logging to file 'gmt-python-tmp.log' (error: 1).") :=
  ⟨by decide, rfl⟩

/-- Helper: the full behaviour of `call_module` once the session is open,
the constants `GMT_MODULE_CMD`, `GMT_LOG_ONCE`, `GMT_IS_FILE` resolve,
and `GMT_Handle_Messages` returns zero: the native module call is made,
the log is read and stripped, the temporary file is deleted, and the
status decides between normal return and the two error messages. -/
theorem call_module_run (env : Env) (tempName module args : String)
    (s : PyState) (sid : Nat) (cmdV logOnceV isFileV : Int)
    (hsid : s.session = some sid)
    (hcmd : get_constant env "GMT_MODULE_CMD" = Except.ok cmdV)
    (hlog : get_constant env "GMT_LOG_ONCE" = Except.ok logOnceV)
    (hfile : get_constant env "GMT_IS_FILE" = Except.ok isFileV)
    (hmsg : env.handleMessages sid logOnceV isFileV tempName = 0) :
    call_module env tempName module args s =
      ((if env.callModuleStatus sid module cmdV args ≠ 0 then
          if pyStrip env.logText = "" then
            Except.error (GMTError.clibError
              ("Invalid GMT module name '" ++ module ++ "'."))
          else
            Except.error (GMTError.clibError (callModuleFailMsg module
              (env.callModuleStatus sid module cmdV args)
              (pyStrip env.logText)))
        else Except.ok ()), s) := by
  obtain ⟨sess, files⟩ := s
  simp only [PyState.session] at hsid
  subst hsid
  simp only [call_module, current_session, hcmd]
  rw [log_to_file_none_ok env tempName ⟨some sid, files⟩
    ⟨some sid, tempName :: files⟩
    (env.callModuleStatus sid module cmdV args, pyStrip env.logText) sid
    logOnceV isFileV _ rfl hlog hfile hmsg rfl]
  simp only [List.erase_cons_head]
  by_cases h0 : env.callModuleStatus sid module cmdV args = 0
  · simp [h0]
  · by_cases hl : pyStrip env.logText = "" <;> simp [h0, hl]

/-- Claim C1 (amended): whenever the logging setup succeeds — the
constant lookups resolve and the native `GMT_Handle_Messages` call
returns zero — `call_module` deletes the temporary log file before it
returns or raises, whether the native module call returns zero or
non-zero status.  (When an exception is raised while setting up logging,
after the temporary file has been created, the file is not deleted; see
the counterexample.) -/
theorem call_module_logfile_deleted_on_completion (env : Env)
    (tempName module args : String) (s : PyState) (sid : Nat)
    (cmdV logOnceV isFileV : Int)
    (hsid : s.session = some sid)
    (hcmd : get_constant env "GMT_MODULE_CMD" = Except.ok cmdV)
    (hlog : get_constant env "GMT_LOG_ONCE" = Except.ok logOnceV)
    (hfile : get_constant env "GMT_IS_FILE" = Except.ok isFileV)
    (hmsg : env.handleMessages sid logOnceV isFileV tempName = 0) :
    (call_module env tempName module args s).2.files = s.files := by
  rw [call_module_run env tempName module args s sid cmdV logOnceV isFileV
    hsid hcmd hlog hfile hmsg]

/-- Witness for the amended C1: in `envFail` the module call fails, yet
the temporary file is gone and unrelated files survive. -/
theorem call_module_logfile_deleted_witness :
    (call_module envFail "gmt-tmp.log" "pscoast" "-R"
        ⟨some 1, ["keep.txt"]⟩).2.files = ["keep.txt"] :=
  call_module_logfile_deleted_on_completion envFail "gmt-tmp.log" "pscoast"
    "-R" ⟨some 1, ["keep.txt"]⟩ 1 1 2 3 rfl rfl rfl rfl rfl

/-- Helper: the failure message splits as prefix ++ log ++ suffix, so the
captured log text appears verbatim inside it. -/
theorem callModuleFailMsg_decomp (module : String) (status : Int)
    (log : String) :
    callModuleFailMsg module status log =
      ("'" ++ module ++ "' failed (error: " ++ toString status ++ ")." ++
        "\n" ++ "---------- Error log ----------" ++ "\n" ++ "" ++ "\n") ++
      log ++
      ("\n" ++ "" ++ "\n" ++ "-------------------------------") := by
  simp only [callModuleFailMsg, String.append_assoc]

/-- Claim C4: with the session open and the logging setup succeeding,
`call_module` returns normally exactly when the native `GMT_Call_Module`
status is zero; every raised error is a `GMTCLibError`; and when the
stripped log text is non-empty the error message contains that text
verbatim. -/
theorem call_module_error_iff_status (env : Env)
    (tempName module args : String) (s : PyState) (sid : Nat)
    (cmdV logOnceV isFileV : Int)
    (hsid : s.session = some sid)
    (hcmd : get_constant env "GMT_MODULE_CMD" = Except.ok cmdV)
    (hlog : get_constant env "GMT_LOG_ONCE" = Except.ok logOnceV)
    (hfile : get_constant env "GMT_IS_FILE" = Except.ok isFileV)
    (hmsg : env.handleMessages sid logOnceV isFileV tempName = 0) :
    ((call_module env tempName module args s).1 = Except.ok () ↔
      env.callModuleStatus sid module cmdV args = 0) ∧
    (∀ e, (call_module env tempName module args s).1 = Except.error e →
      ∃ m, e = GMTError.clibError m) ∧
    (env.callModuleStatus sid module cmdV args ≠ 0 →
      pyStrip env.logText ≠ "" →
      ∃ pre post, (call_module env tempName module args s).1 =
        Except.error (GMTError.clibError
          (pre ++ pyStrip env.logText ++ post))) := by
  rw [call_module_run env tempName module args s sid cmdV logOnceV isFileV
    hsid hcmd hlog hfile hmsg]
  refine ⟨?_, ?_, ?_⟩
  · by_cases hst : env.callModuleStatus sid module cmdV args = 0
    · simp [hst]
    · by_cases hl : pyStrip env.logText = "" <;> simp [hst, hl]
  · intro e he
    by_cases hst : env.callModuleStatus sid module cmdV args = 0
    · simp [hst] at he
    · by_cases hl : pyStrip env.logText = ""
      · simp [hst, hl] at he
        exact ⟨_, he.symm⟩
      · simp [hst, hl] at he
        exact ⟨_, he.symm⟩
  · intro hst hl
    refine ⟨"'" ++ module ++ "' failed (error: " ++
        toString (env.callModuleStatus sid module cmdV args) ++ ")." ++
        "\n" ++ "---------- Error log ----------" ++ "\n" ++ "" ++ "\n",
      "\n" ++ "" ++ "\n" ++ "-------------------------------", ?_⟩
    rw [if_pos hst, if_neg hl, callModuleFailMsg_decomp]

/-- Witness for C4: a zero status returns normally, and a failing call
with log text `"boom"` raises a `GMTCLibError` embedding that text. -/
theorem call_module_error_iff_status_witness :
    (call_module envOK "gmt-tmp-a.log" "grdinfo" "-C" ⟨some 1, []⟩).1 =
      Except.ok () ∧
    (∃ pre post,
      (call_module envFail "gmt-tmp-b.log" "pscoast" "-R" ⟨some 1, []⟩).1 =
        Except.error (GMTError.clibError
          (pre ++ pyStrip envFail.logText ++ post))) :=
  ⟨((call_module_error_iff_status envOK "gmt-tmp-a.log" "grdinfo" "-C"
      ⟨some 1, []⟩ 1 1 2 3 rfl rfl rfl rfl rfl).1).mpr rfl,
   (call_module_error_iff_status envFail "gmt-tmp-b.log" "pscoast" "-R"
      ⟨some 1, []⟩ 1 1 2 3 rfl rfl rfl rfl rfl).2.2 (by decide) (by decide)⟩

/-- Claim C8: when the native call fails and the stripped log text is
empty, the raised error's message claims the module name is invalid,
whatever the true cause of the failure. -/
theorem call_module_empty_log_invalid_name (env : Env)
    (tempName module args : String) (s : PyState) (sid : Nat)
    (cmdV logOnceV isFileV : Int)
    (hsid : s.session = some sid)
    (hcmd : get_constant env "GMT_MODULE_CMD" = Except.ok cmdV)
    (hlog : get_constant env "GMT_LOG_ONCE" = Except.ok logOnceV)
    (hfile : get_constant env "GMT_IS_FILE" = Except.ok isFileV)
    (hmsg : env.handleMessages sid logOnceV isFileV tempName = 0)
    (hst : env.callModuleStatus sid module cmdV args ≠ 0)
    (hl : pyStrip env.logText = "") :
    (call_module env tempName module args s).1 =
      Except.error (GMTError.clibError
        ("Invalid GMT module name '" ++ module ++ "'.")) := by
  rw [call_module_run env tempName module args s sid cmdV logOnceV isFileV
    hsid hcmd hlog hfile hmsg, if_pos hst, if_pos hl]

/-- Witness for C8: status 5 with a whitespace-only log yields the
invalid-module-name message even though the module name was fine. -/
theorem call_module_empty_log_invalid_name_witness :
    (call_module envFailEmptyLog "gmt-tmp-c.log" "notamodule" "-X"
        ⟨some 2, []⟩).1 =
      Except.error (GMTError.clibError
        "Invalid GMT module name 'notamodule'.") :=
  call_module_empty_log_invalid_name envFailEmptyLog "gmt-tmp-c.log"
    "notamodule" "-X" ⟨some 2, []⟩ 2 1 2 3 rfl rfl rfl rfl rfl (by decide) rfl

/-- Helper: every error `get_constant` raises is a `GMTCLibError`. -/
theorem get_constant_error_clib (env : Env) (name : String) (e : GMTError)
    (h : get_constant env name = Except.error e) :
    ∃ m, e = GMTError.clibError m := by
  unfold get_constant at h
  split at h
  · simp only [Except.error.injEq] at h
    exact ⟨_, h.symm⟩
  · split at h
    · simp only [Except.error.injEq] at h
      exact ⟨_, h.symm⟩
    · simp at h

/-- Helper: every error `_parse_data_family` raises is a `GMTCLibError`. -/
theorem parse_data_family_error_clib (env : Env) (family : String)
    (e : GMTError) (h : (parse_data_family env family).1 = Except.error e) :
    ∃ m, e = GMTError.clibError m := by
  simp only [parse_data_family] at h
  split at h
  · simp only [Except.error.injEq] at h
    exact ⟨_, h.symm⟩
  · split at h
    · split at h
      · next heq =>
          simp only [Except.error.injEq] at h
          subst h
          exact get_constant_error_clib env _ _ heq
      · split at h
        · split at h
          · split at h
            · next heq =>
                simp only [Except.error.injEq] at h
                subst h
                exact get_constant_error_clib env _ _ heq
            · simp at h
          · simp only [Except.error.injEq] at h
            exact ⟨_, h.symm⟩
        · simp at h
    · simp only [Except.error.injEq] at h
      exact ⟨_, h.symm⟩

/-- Helper: `_parse_data_family` only ever invokes `GMT_Get_Enum`. -/
theorem parse_data_family_trace_enum_only (env : Env) (family : String) :
    ∀ c ∈ (parse_data_family env family).2, ∃ n, c = NativeCall.getEnum n := by
  intro c hc
  simp only [parse_data_family] at hc
  repeat' split at hc
  all_goals first
    | exact absurd hc (List.not_mem_nil c)
    | (rw [List.mem_singleton] at hc
       exact ⟨_, hc⟩)
    | (rw [List.mem_cons, List.mem_singleton] at hc
       rcases hc with rfl | rfl
       · exact ⟨_, rfl⟩
       · exact ⟨_, rfl⟩)

/-- Helper: a successful parse implies the family string was valid. -/
theorem parse_data_family_ok_valid (env : Env) (family : String) (v : Int)
    (h : (parse_data_family env family).1 = Except.ok v) :
    familyStringValid family := by
  simp only [parse_data_family] at h
  split at h
  · simp at h
  · next hlen =>
    split at h
    · next hmem =>
      split at h
      · simp at h
      · split at h
        · next h2 =>
          split at h
          · next hvia =>
              split at h
              · simp at h
              · exact ⟨Nat.le_of_not_lt hlen, hmem, fun _ => hvia⟩
          · simp at h
        · next h2 =>
            exact ⟨Nat.le_of_not_lt hlen, hmem, fun hh => absurd hh h2⟩
    · simp at h

/-- Counterexample to C2 as stated: with a valid family but an invalid
geometry, `create_data` does raise `GMTCLibError`, yet a native library
function (`GMT_Get_Enum`, invoked by `_parse_data_family` through
`get_constant`) has already been called before the rejection. -/
theorem create_data_native_call_before_rejection :
    (create_data envOK ⟨some 1, []⟩ "GMT_IS_GRID" "bogus" "GMT_OUTPUT"
        noKwargs).1 =
      Except.error (GMTError.clibError "Invalid data geometry 'bogus'.") ∧
    NativeCall.getEnum "GMT_IS_GRID" ∈
      (create_data envOK ⟨some 1, []⟩ "GMT_IS_GRID" "bogus" "GMT_OUTPUT"
        noKwargs).2 :=
  ⟨rfl, by decide⟩

/-- Claim C2 (amended): for every invalid family, geometry, or mode
string, `create_data` raises `GMTCLibError` before the native
`GMT_Create_Data` is invoked — the only native functions reached before
the rejection are `GMT_Get_Enum` constant lookups (which
`_parse_data_family` performs for a valid family part before the
geometry and mode checks run). -/
theorem create_data_rejected_before_create (env : Env) (s : PyState)
    (family geometry mode : String) (kwargs : CreateDataKwargs)
    (h : ¬ familyStringValid family ∨ mode ∉ data_modes ∨
      geometry ∉ data_geometries) :
    (∃ m, (create_data env s family geometry mode kwargs).1 =
      Except.error (GMTError.clibError m)) ∧
    (∀ c ∈ (create_data env s family geometry mode kwargs).2,
      ∃ n, c = NativeCall.getEnum n) := by
  have htr := parse_data_family_trace_enum_only env family
  rcases hp : parse_data_family env family with ⟨r, tr⟩
  rw [hp] at htr
  cases r with
  | error e =>
      have he : ∃ m, e = GMTError.clibError m :=
        parse_data_family_error_clib env family e (by rw [hp])
      obtain ⟨m, rfl⟩ := he
      refine ⟨⟨m, ?_⟩, ?_⟩
      · simp [create_data, hp]
      · intro c hc
        apply htr
        simpa [create_data, hp] using hc
  | ok v =>
      have hval : familyStringValid family :=
        parse_data_family_ok_valid env family v (by rw [hp])
      have hmg : mode ∉ data_modes ∨ geometry ∉ data_geometries := by
        rcases h with h | h | h
        · exact absurd hval h
        · exact Or.inl h
        · exact Or.inr h
      by_cases hmode : mode ∈ data_modes
      · have hgeom : geometry ∉ data_geometries := by
          rcases hmg with h' | h'
          · exact absurd hmode h'
          · exact h'
        refine ⟨⟨"Invalid data geometry '" ++ geometry ++ "'.", ?_⟩, ?_⟩
        · simp [create_data, hp, hmode, hgeom]
        · intro c hc
          apply htr
          simpa [create_data, hp, hmode, hgeom] using hc
      · refine ⟨⟨"Invalid data creation mode '" ++ mode ++ "'.", ?_⟩, ?_⟩
        · simp [create_data, hp, hmode]
        · intro c hc
          apply htr
          simpa [create_data, hp, hmode] using hc

/-- Witness for the amended C2 at a concrete invalid mode. -/
theorem create_data_rejected_before_create_witness :
    (∃ m, (create_data envOK ⟨some 1, []⟩ "GMT_IS_GRID" "GMT_IS_POINT"
        "GMT_BAD_MODE" noKwargs).1 =
      Except.error (GMTError.clibError m)) ∧
    (∀ c ∈ (create_data envOK ⟨some 1, []⟩ "GMT_IS_GRID" "GMT_IS_POINT"
        "GMT_BAD_MODE" noKwargs).2, ∃ n, c = NativeCall.getEnum n) :=
  create_data_rejected_before_create envOK ⟨some 1, []⟩ "GMT_IS_GRID"
    "GMT_IS_POINT" "GMT_BAD_MODE" noKwargs (Or.inr (Or.inl (by decide)))

/-- Claim C10: under a successful parse and valid geometry and mode, the
single `GMT_Create_Data` invocation receives `dim`, `ranges`, `inc`
exactly as given in `kwargs` — hence `NULL` (`none`) for each absent key —
`registration` defaulting to the looked-up `GMT_GRID_NODE_REG` value and
`pad` defaulting to the looked-up `GMT_PAD_DEFAULT` value when absent,
and always `NULL` for the existing-data argument. -/
theorem create_data_null_defaults (env : Env) (s : PyState)
    (family geometry mode : String) (kwargs : CreateDataKwargs) (sid : Nat)
    (famv regD padD gv mv : Int) (trf : List NativeCall)
    (hfam : parse_data_family env family = (Except.ok famv, trf))
    (hmode : mode ∈ data_modes) (hgeom : geometry ∈ data_geometries)
    (hreg : get_constant env "GMT_GRID_NODE_REG" = Except.ok regD)
    (hpad : get_constant env "GMT_PAD_DEFAULT" = Except.ok padD)
    (hsid : s.session = some sid)
    (hg : get_constant env geometry = Except.ok gv)
    (hm : get_constant env mode = Except.ok mv) :
    (create_data env s family geometry mode kwargs).2 =
      trf ++ [NativeCall.getEnum "GMT_GRID_NODE_REG",
        NativeCall.getEnum "GMT_PAD_DEFAULT", NativeCall.getEnum geometry,
        NativeCall.getEnum mode,
        NativeCall.createData sid famv gv mv kwargs.dim kwargs.ranges
          kwargs.inc (kwargs.registration.getD regD)
          (kwargs.pad.getD padD) none] := by
  obtain ⟨sess, files⟩ := s
  simp only [PyState.session] at hsid
  subst hsid
  simp only [create_data, hfam, current_session, hreg, hpad, hg, hm,
    kwargs_to_ctypes_array]
  simp only [hmode, hgeom, if_true]
  split <;> simp

/-- Witness for C10: empty `kwargs` pass `NULL` for `dim`, `ranges`,
`inc` and the two looked-up defaults. -/
theorem create_data_null_defaults_witness :
    (create_data envOK ⟨some 1, []⟩ "GMT_IS_GRID" "GMT_IS_POINT"
        "GMT_OUTPUT" noKwargs).2 =
      [NativeCall.getEnum "GMT_IS_GRID",
        NativeCall.getEnum "GMT_GRID_NODE_REG",
        NativeCall.getEnum "GMT_PAD_DEFAULT",
        NativeCall.getEnum "GMT_IS_POINT", NativeCall.getEnum "GMT_OUTPUT",
        NativeCall.createData 1 10 30 40 none none none 6 4 none] := by
  have h := create_data_null_defaults envOK ⟨some 1, []⟩ "GMT_IS_GRID"
    "GMT_IS_POINT" "GMT_OUTPUT" noKwargs 1 10 6 4 30 40
    [NativeCall.getEnum "GMT_IS_GRID"] rfl (by decide) (by decide) rfl rfl
    rfl rfl rfl
  exact h
